import Mathlib

/-!
Verification of the ArtistGrid monitor program (`src/main.py`), a single-file
Python service that polls one web page, detects content changes by SHA-256
hashing, notifies a Discord webhook on change, and submits a configured list
of URLs to the Wayback Machine, gated by a one-hour cooldown after
rate-limiting.  The Python code is shallowly embedded below: pure helpers
become Lean functions, the global mutable state (`cooldown_until`,
`log_entries`, `last_hash`) is threaded explicitly, outcomes of real network
calls are supplied as environment values, and the side effects of one call
are collected as an explicit event trace.
-/

namespace Monitor

/-- Configuration constant `URL_TO_MONITOR` (main.py line 19). -/
def URL_TO_MONITOR : String := "https://sheets.artistgrid.cx/artists.html"

/-- The built-in default archive target list (main.py lines 24-28, the
`else` arm of the `ARCHIVE_URLS` conditional). -/
def default_archive_urls : List String :=
  ["https://sheets.artistgrid.cx/artists.html",
   "https://sheets.artistgrid.cx/artists.xlsx",
   "https://docs.google.com/spreadsheets/d/1S6WwM05O277npQbaiNk-jZlXK3TdooSyWtqaWUvAI78/htmlview"]

/-- Python `str.strip()` on the character list of a string: remove leading
and trailing whitespace (main.py line 24, `url.strip()`). -/
def pyStrip (cs : List Char) : List Char :=
  ((cs.dropWhile Char.isWhitespace).reverse.dropWhile Char.isWhitespace).reverse

/-- Python `str.split(",")`: split on every comma, keeping empty fields;
`"".split(",") = [""]` and `",".split(",") = ["", ""]`. -/
def splitOnComma (cs : List Char) : List (List Char) :=
  match cs with
  | [] => [[]]
  | c :: rest =>
    let r := splitOnComma rest
    if c = ',' then [] :: r
    else
      match r with
      | [] => [[c]]
      | h :: t => (c :: h) :: t

/-- Computation of `URLS_TO_ARCHIVE` from the `ARCHIVE_URLS` environment
variable (main.py lines 23-28): `none` models an unset variable; a set but
empty string is falsy in Python, so both use the default list; otherwise
the comma-separated fields are stripped and empty fields dropped
(`[url.strip() for url in env_urls.split(",") if url.strip()]`). -/
def parse_archive_urls (env : Option String) : List String :=
  match env with
  | none => default_archive_urls
  | some s =>
    if s = "" then default_archive_urls
    else (splitOnComma s.data).filterMap fun u =>
      let t := pyStrip u
      if t = [] then none else some (String.mk t)

-- ---------------------------------------------------------------------
-- Cooldown Management (main.py lines 51-60)
-- ---------------------------------------------------------------------

/-- The global `cooldown_until` variable, `None` at process start
(main.py line 13).  Time is modelled in whole seconds as `Nat`. -/
def cooldown_until_init : Option Nat := none

/-- `in_cooldown()` (main.py lines 51-54): `cooldown_until and
datetime.now(timezone.utc) < cooldown_until` — falsy when unset, otherwise
the pure comparison of the current time against the stored deadline. -/
def in_cooldown (cd : Option Nat) (now : Nat) : Bool :=
  match cd with
  | none => false
  | some u => decide (now < u)

/-- `enter_cooldown()` (main.py lines 56-60): store
`now + timedelta(hours=1)`, i.e. `now + 3600` seconds. -/
def enter_cooldown (now : Nat) : Option Nat :=
  some (now + 3600)

/-- The deadline stored in the cooldown state, `0` when unset. -/
def cdDeadline (cd : Option Nat) : Nat :=
  cd.getD 0

-- ---------------------------------------------------------------------
-- Logging (main.py lines 39-46)
-- ---------------------------------------------------------------------

/-- `log(msg)`'s effect on the `log_entries` buffer (main.py lines 39-46):
append the formatted entry, then `del log_entries[0]` once the length
exceeds 1000. -/
def log_append (buf : List String) (entry : String) : List String :=
  let b := buf ++ [entry]
  if b.length > 1000 then b.drop 1 else b

-- ---------------------------------------------------------------------
-- Event traces
-- ---------------------------------------------------------------------

/-- One observable action of the program.  `logE` is a `log(...)` call
(the timestamp prefix is added by the buffer, not modelled here);
`fetch`, `submit`, `snapshotQuery` and `webhookPost` are the four kinds of
outbound HTTP request; `notifyCall` marks an invocation of
`send_discord_message` and `archiveCall` an invocation of `archive_url`,
so that call counts and call order are visible in the trace. -/
inductive Event where
  | logE (msg : String)
  | fetch (url : String)
  | submit (url : String)
  | snapshotQuery (url : String)
  | webhookPost (content : String)
  | notifyCall (msg : String)
  | archiveCall (url : String)
deriving DecidableEq, Repr

/-- Is the event an outbound HTTP request? -/
def Event.isOutbound : Event → Bool
  | .fetch _ => true
  | .submit _ => true
  | .snapshotQuery _ => true
  | .webhookPost _ => true
  | _ => false

/-- Is the event an archive-save submission? -/
def Event.isSubmit : Event → Bool
  | .submit _ => true
  | _ => false

/-- Is the event a log entry? -/
def Event.isLog : Event → Bool
  | .logE _ => true
  | _ => false

/-- Is the event a Notifier invocation? -/
def Event.isNotifyCall : Event → Bool
  | .notifyCall _ => true
  | _ => false

/-- Project the trace onto Notifier invocations (left) and `archive_url`
invocations (right), preserving order. -/
def callTrace : Event → Option (String ⊕ String)
  | .notifyCall m => some (Sum.inl m)
  | .archiveCall u => some (Sum.inr u)
  | _ => none

-- ---------------------------------------------------------------------
-- HTML monitoring helpers (main.py lines 65-87)
-- ---------------------------------------------------------------------

/-- `fetch_html(url)` (main.py lines 65-72).  The outcome of the network
round-trip (the body text, or the text of the raised exception, which
includes timeouts and non-2xx statuses via `raise_for_status`) is supplied
by the environment as `res`; the function yields the returned value
(`some body` or `None`) and its trace: the GET attempt, plus the error log
in the `except` arm. -/
def fetch_html (res : Except String String) (url : String) :
    Option String × List Event :=
  match res with
  | .ok body => (some body, [.fetch url])
  | .error e => (none, [.fetch url, .logE ("❌ Error fetching HTML: " ++ e)])

/-- The message sent by the monitor loop on a detected change
(main.py line 166). -/
def changedNotification : String :=
  "⚠️ Content changed! <" ++ URL_TO_MONITOR ++ ">"

/-- `send_discord_message(message)` (main.py lines 77-87): if the webhook
is unset, log a warning and return without any outbound call; otherwise
POST the message truncated to 1900 characters (`message[:1900]`) and log
success or the delivery error.  `postRes` is the environment's outcome of
the POST.  The leading `notifyCall` event marks the invocation itself. -/
def send_discord_message (webhook : Option String) (postRes : Except String Unit)
    (message : String) : List Event :=
  Event.notifyCall message ::
    match webhook with
    | none => [.logE "⚠️ DISCORD_WEBHOOK_URL not set."]
    | some _ =>
      Event.webhookPost (String.mk (message.data.take 1900)) ::
        match postRes with
        | .ok _ => [.logE "✅ Discord message sent."]
        | .error e => [.logE ("❌ Error sending message: " ++ e)]

-- ---------------------------------------------------------------------
-- Archiving (main.py lines 92-142)
-- ---------------------------------------------------------------------

/-- Environment outcome of the archive-save GET
(`requests.get("https://web.archive.org/save/" + url, ...)`, main.py
line 115): a completed response with its status code and final URL, a
`requests.exceptions.Timeout`, or another `requests.exceptions.RequestException`. -/
inductive SubmitResult where
  | response (statusCode : Nat) (finalUrl : String)
  | timeout
  | requestError (e : String)
deriving DecidableEq, Repr

/-- Environment outcome of the snapshot-availability query inside
`is_recent_snapshot` (main.py lines 92-105): the query (or JSON parsing)
raised, or there is no closest snapshot, or the closest snapshot has the
given age in seconds (an `Int`: `total_seconds()` of a signed difference)
and URL. -/
inductive SnapEnv where
  | queryError (e : String)
  | noSnapshot
  | closest (ageSeconds : Int) (snapshotUrl : String)
deriving DecidableEq, Repr

/-- `is_recent_snapshot(url, max_age_seconds)` (main.py lines 92-105):
query the availability endpoint; on any exception log and return
`(False, None)`; with no closest snapshot return `(False, None)`;
otherwise compare the snapshot age against `max_age_seconds` and return
the snapshot URL. -/
def is_recent_snapshot (se : SnapEnv) (url : String) (maxAge : Int) :
    (Bool × Option String) × List Event :=
  match se with
  | .queryError e =>
    ((false, none),
     [.snapshotQuery url, .logE ("⚠️ Failed to check snapshot recency: " ++ e)])
  | .noSnapshot => ((false, none), [.snapshotQuery url])
  | .closest age snapUrl =>
    ((decide (age ≤ maxAge), some snapUrl), [.snapshotQuery url])

/-- Environment for one `archive_url` call: the outcome of the save
submission and of the snapshot-recency check. -/
structure ArchiveEnv where
  submitRes : SubmitResult
  snap : SnapEnv

/-- The log line emitted by `enter_cooldown` (main.py line 60); the
`strftime` rendering of the deadline is abstracted to its numeric value. -/
def enterCooldownLog (now : Nat) : Event :=
  .logE ("🛑 Entering cooldown until " ++ toString (now + 3600) ++ " UTC")

/-- `archive_url(url)` (main.py lines 107-137) as a function of the
cooldown state `cd` and current time `now`, returning the new cooldown
state and the trace.  If in cooldown: log the skip and return.  Otherwise
log and perform the save GET; on a completed response log the status code
and final URL, and on 429/503 log, enter cooldown and return; on any other
status wait (not modelled — time is a per-call parameter) and run the
snapshot-recency check, logging its verdict; on `Timeout` or
`RequestException` from the submission, log and enter cooldown.  The
leading `archiveCall` event marks the invocation itself. -/
def archive_url (aenv : ArchiveEnv) (now : Nat) (cd : Option Nat) (url : String) :
    Option Nat × List Event :=
  if in_cooldown cd now then
    (cd, [.archiveCall url, .logE ("🚫 Skipping " ++ url ++ " — system is in cooldown.")])
  else
    match aenv.submitRes with
    | .timeout =>
      (enter_cooldown now,
       [.archiveCall url, .logE ("📤 Submitting URL: " ++ url), .submit url,
        .logE "⏰ Timeout occurred.", enterCooldownLog now])
    | .requestError e =>
      (enter_cooldown now,
       [.archiveCall url, .logE ("📤 Submitting URL: " ++ url), .submit url,
        .logE ("❌ Request error: " ++ e), enterCooldownLog now])
    | .response code finalUrl =>
      let pre := [Event.archiveCall url, Event.logE ("📤 Submitting URL: " ++ url),
                  Event.submit url, Event.logE ("📦 Status code: " ++ toString code),
                  Event.logE ("🌐 Archive/Status URL: " ++ finalUrl)]
      if code = 429 ∨ code = 503 then
        (enter_cooldown now,
         pre ++ [.logE ("🚷 Rate limited or service unavailable for " ++ url ++
                        " (status " ++ toString code ++ ")"),
                 enterCooldownLog now])
      else
        let r := is_recent_snapshot aenv.snap url 3600
        let verdict :=
          if r.1.1 then
            [Event.logE ("✅ Archived successfully and snapshot is recent: " ++
                         (r.1.2.getD ""))]
          else
            Event.logE "⚠️ Snapshot not recent (older than 1 hour). Rate-limited or error?" ::
              match r.1.2 with
              | some su => [Event.logE ("🕓 Last available snapshot: " ++ su)]
              | none => []
        (cd, pre ++ r.2 ++ verdict)

/-- The `for url in URLS_TO_ARCHIVE` loop body of `archive_all_urls`
(main.py lines 141-142): call `archive_url` once per URL, in list order,
threading the cooldown state. -/
def archive_seq (aenvs : String → ArchiveEnv) (now : Nat) (cd : Option Nat) :
    List String → Option Nat × List Event
  | [] => (cd, [])
  | url :: rest =>
    let r1 := archive_url (aenvs url) now cd url
    let r2 := archive_seq aenvs now r1.1 rest
    (r2.1, r1.2 ++ r2.2)

/-- `archive_all_urls()` (main.py lines 139-142): log the banner, then
archive each configured URL in order. -/
def archive_all_urls (aenvs : String → ArchiveEnv) (now : Nat) (cd : Option Nat)
    (urls : List String) : Option Nat × List Event :=
  let r := archive_seq aenvs now cd urls
  (r.1, .logE "🚀 Archiving all configured URLs due to detected content change." :: r.2)

-- ---------------------------------------------------------------------
-- SHA-256 (hashlib.sha256(content.encode("utf-8")).hexdigest(),
-- main.py lines 74-75)
-- ---------------------------------------------------------------------

/-- Truncation to an unsigned 32-bit word. -/
def w32 (x : Nat) : Nat := x % 4294967296

/-- Right rotation of a 32-bit word. -/
def rotr32 (x n : Nat) : Nat := w32 ((x >>> n) ||| (x <<< (32 - n)))

/-- SHA-256 upper-case sigma 0 (FIPS 180-4, rotations by 2, 13, 22). -/
def sumSig0 (x : Nat) : Nat := rotr32 x 2 ^^^ rotr32 x 13 ^^^ rotr32 x 22

/-- SHA-256 upper-case sigma 1 (rotations by 6, 11, 25). -/
def sumSig1 (x : Nat) : Nat := rotr32 x 6 ^^^ rotr32 x 11 ^^^ rotr32 x 25

/-- SHA-256 lower-case sigma 0 (rotations by 7 and 18, shift by 3). -/
def smallSig0 (x : Nat) : Nat := rotr32 x 7 ^^^ rotr32 x 18 ^^^ (x >>> 3)

/-- SHA-256 lower-case sigma 1 (rotations by 17 and 19, shift by 10). -/
def smallSig1 (x : Nat) : Nat := rotr32 x 17 ^^^ rotr32 x 19 ^^^ (x >>> 10)

/-- SHA-256 Ch, with the complement of `x` taken within 32 bits. -/
def shaCh (x y z : Nat) : Nat := (x &&& y) ^^^ ((x ^^^ 4294967295) &&& z)

/-- SHA-256 Maj. -/
def shaMaj (x y z : Nat) : Nat := (x &&& y) ^^^ (x &&& z) ^^^ (y &&& z)

/-- The 64 SHA-256 round constants of FIPS 180-4 (the fractional parts of
the cube roots of the first 64 primes), written in decimal. -/
def K64 : List Nat :=
  [1116352408, 1899447441, 3049323471, 3921009573, 961987163, 1508970993,
   2453635748, 2870763221, 3624381080, 310598401, 607225278, 1426881987,
   1925078388, 2162078206, 2614888103, 3248222580, 3835390401, 4022224774,
   264347078, 604807628, 770255983, 1249150122, 1555081692, 1996064986,
   2554220882, 2821834349, 2952996808, 3210313671, 3336571891, 3584528711,
   113926993, 338241895, 666307205, 773529912, 1294757372, 1396182291,
   1695183700, 1986661051, 2177026350, 2456956037, 2730485921, 2820302411,
   3259730800, 3345764771, 3516065817, 3600352804, 4094571909, 275423344,
   430227734, 506948616, 659060556, 883997877, 958139571, 1322822218,
   1537002063, 1747873779, 1955562222, 2024104815, 2227730452, 2361852424,
   2428436474, 2756734187, 3204031479, 3329325298]

/-- The eight 32-bit words of a SHA-256 hash state. -/
structure Sha256State where
  a : Nat
  b : Nat
  c : Nat
  d : Nat
  e : Nat
  f : Nat
  g : Nat
  h : Nat
deriving DecidableEq, Repr

/-- Every word of the hash state fits in 32 bits. -/
def Sha256State.bounded (s : Sha256State) : Prop :=
  s.a < 4294967296 ∧ s.b < 4294967296 ∧ s.c < 4294967296 ∧ s.d < 4294967296 ∧
  s.e < 4294967296 ∧ s.f < 4294967296 ∧ s.g < 4294967296 ∧ s.h < 4294967296

/-- The SHA-256 initial hash value of FIPS 180-4 (the fractional parts of
the square roots of the first 8 primes), written in decimal. -/
def shaInit : Sha256State :=
  ⟨1779033703, 3144134277, 1013904242, 2773480762,
   1359893119, 2600822924, 528734635, 1541459225⟩

/-- One round of the SHA-256 compression loop. -/
def shaRound (k w : Nat) (r : Sha256State) : Sha256State :=
  let t1 := w32 (r.h + sumSig1 r.e + shaCh r.e r.f r.g + k + w)
  let t2 := w32 (sumSig0 r.a + shaMaj r.a r.b r.c)
  ⟨w32 (t1 + t2), r.a, r.b, r.c, w32 (r.d + t1), r.e, r.f, r.g⟩

/-- Extend a 16-word block by one scheduled word. -/
def scheduleStep (ws : List Nat) : List Nat :=
  let t := ws.length
  ws ++ [w32 (smallSig1 (ws.getD (t - 2) 0) + ws.getD (t - 7) 0 +
              smallSig0 (ws.getD (t - 15) 0) + ws.getD (t - 16) 0)]

/-- The 64-word message schedule of a 16-word block. -/
def schedule (block : List Nat) : List Nat :=
  (List.range 48).foldl (fun ws _ => scheduleStep ws) block

/-- SHA-256 compression of one 16-word block into the running hash state. -/
def shaCompress (st : Sha256State) (block : List Nat) : Sha256State :=
  let ws := schedule block
  let r := (List.range 64).foldl (fun r t => shaRound (K64.getD t 0) (ws.getD t 0) r) st
  ⟨w32 (st.a + r.a), w32 (st.b + r.b), w32 (st.c + r.c), w32 (st.d + r.d),
   w32 (st.e + r.e), w32 (st.f + r.f), w32 (st.g + r.g), w32 (st.h + r.h)⟩

/-- SHA-256 padding of a byte string: append `0x80`, zero bytes up to
56 mod 64, then the bit length as 8 big-endian bytes. -/
def padMsg (m : List Nat) : List Nat :=
  let L := m.length
  let z := (120 - ((L + 1) % 64)) % 64
  m ++ [0x80] ++ List.replicate z 0 ++
    (List.range 8).map (fun i => ((8 * L) >>> (8 * (7 - i))) % 256)

/-- Group a padded byte string into big-endian 32-bit words. -/
def toWords : List Nat → List Nat
  | b0 :: b1 :: b2 :: b3 :: rest =>
    (((b0 * 256 + b1) * 256 + b2) * 256 + b3) :: toWords rest
  | _ => []

/-- Split a word list into 16-word blocks. -/
def toBlocks (ws : List Nat) : List (List Nat) :=
  match ws with
  | [] => []
  | w :: rest => ((w :: rest).take 16) :: toBlocks ((w :: rest).drop 16)
termination_by ws.length
decreasing_by simp [List.length_drop]; omega

/-- Assemble the eight hash-state words into one 256-bit number. -/
def stateToNat (s : Sha256State) : Nat :=
  ((((((s.a * 4294967296 + s.b) * 4294967296 + s.c) * 4294967296 + s.d) *
      4294967296 + s.e) * 4294967296 + s.f) * 4294967296 + s.g) * 4294967296 + s.h

/-- The SHA-256 digest of a byte string, as a 256-bit number. -/
def sha256Nat (m : List Nat) : Nat :=
  stateToNat ((toBlocks (toWords (padMsg m))).foldl shaCompress shaInit)

/-- UTF-8 encoding of one Unicode scalar value. -/
def utf8Bytes (n : Nat) : List Nat :=
  if n < 0x80 then [n]
  else if n < 0x800 then
    [0xc0 ||| (n >>> 6), 0x80 ||| (n &&& 0x3f)]
  else if n < 0x10000 then
    [0xe0 ||| (n >>> 12), 0x80 ||| ((n >>> 6) &&& 0x3f), 0x80 ||| (n &&& 0x3f)]
  else
    [0xf0 ||| (n >>> 18), 0x80 ||| ((n >>> 12) &&& 0x3f),
     0x80 ||| ((n >>> 6) &&& 0x3f), 0x80 ||| (n &&& 0x3f)]

/-- `content.encode("utf-8")`: the UTF-8 bytes of a string. -/
def strBytes (s : String) : List Nat :=
  s.data.foldr (fun c acc => utf8Bytes c.toNat ++ acc) []

/-- One lowercase hexadecimal digit. -/
def hexChar (n : Nat) : Char :=
  if n < 10 then Char.ofNat (48 + n) else Char.ofNat (87 + n)

/-- Render a 256-bit number as exactly 64 lowercase hex characters
(the `hexdigest()` of the 32-byte digest). -/
def toHexFixed (n : Nat) : String :=
  String.mk ((List.range 64).map fun i => hexChar ((n >>> (4 * (63 - i))) % 16))

/-- `hash_content(content)` (main.py lines 74-75):
`hashlib.sha256(content.encode("utf-8")).hexdigest()`. -/
def hash_content (content : String) : String :=
  toHexFixed (sha256Nat (strBytes content))

-- ---------------------------------------------------------------------
-- Monitor + Archive on Change Loop (main.py lines 147-168)
-- ---------------------------------------------------------------------

/-- Environment for one iteration of the `while True` loop: the outcome of
the page fetch, the webhook configuration and POST outcome, and the
archive environments, one per submitted URL. -/
structure IterEnv where
  fetchRes : Except String String
  webhook : Option String
  postRes : Except String Unit
  aenvs : String → ArchiveEnv

/-- One iteration of the `while True` body of `monitor_and_archive_loop`
(main.py lines 156-168), after the sleep: fetch the monitored page; on
failure log and keep `last_hash` and the cooldown state; on success hash
the body, and when the hash differs log, notify, archive all configured
URLs and update `last_hash`.  Returns the new `last_hash`, the new
cooldown state, and the trace. -/
def running_step (env : IterEnv) (urls : List String) (now : Nat)
    (lastHash : String) (cd : Option Nat) : String × Option Nat × List Event :=
  let f := fetch_html env.fetchRes URL_TO_MONITOR
  match f.1 with
  | none => (lastHash, cd, f.2 ++ [.logE "⚠️ Failed to fetch. Skipping."])
  | some body =>
    let currentHash := hash_content body
    if currentHash ≠ lastHash then
      let nevs := send_discord_message env.webhook env.postRes changedNotification
      let r := archive_all_urls env.aenvs now cd urls
      (currentHash, r.1, f.2 ++ [.logE "⚠️ HTML content changed!"] ++ nevs ++ r.2)
    else
      (lastHash, cd, f.2)

/-- Initialization of `monitor_and_archive_loop` (main.py lines 147-154):
log the banner, fetch the monitored URL once; on failure log the fatal
message and return `none` (the loop exits without ever polling); on
success return the initial hash. -/
def monitor_init (initFetch : Except String String) : Option String × List Event :=
  let f := fetch_html initFetch URL_TO_MONITOR
  let banner := Event.logE ("🔍 Monitoring HTML content at: " ++ URL_TO_MONITOR)
  match f.1 with
  | none =>
    (none, banner :: f.2 ++ [.logE "❌ Failed to get initial HTML content. Exiting monitor."])
  | some body => (some (hash_content body), banner :: f.2)

/-- The polling loop in the `Running` state, iterated over a finite list
of per-iteration environments paired with the iteration's clock value. -/
def run_iters (urls : List String) (lastHash : String) (cd : Option Nat) :
    List (IterEnv × Nat) → List Event
  | [] => []
  | (env, now) :: rest =>
    let r := running_step env urls now lastHash cd
    r.2.2 ++ run_iters urls r.1 r.2.1 rest

/-- `monitor_and_archive_loop()` (main.py lines 147-168): initialize, and
poll only when initialization succeeded.  The unbounded `while True` is
observed through an arbitrary finite prefix `iters` of iteration
environments; the cooldown state starts unset. -/
def monitor_and_archive_loop (urls : List String) (initFetch : Except String String)
    (iters : List (IterEnv × Nat)) : List Event :=
  match monitor_init initFetch with
  | (none, evs) => evs
  | (some h0, evs) => evs ++ run_iters urls h0 cooldown_until_init iters

-- ---------------------------------------------------------------------
-- Outbound request descriptions (timeouts)
-- ---------------------------------------------------------------------

/-- The shape of one outbound HTTP call: method, URL, and the `timeout=`
keyword argument passed to `requests` (`none` when the call site passes
no timeout). -/
structure HttpRequest where
  isPost : Bool
  url : String
  timeout : Option Nat
deriving DecidableEq, Repr

/-- The monitored-page GET of `fetch_html` (main.py line 67):
`requests.get(url, timeout=10)`. -/
def fetch_html_request (url : String) : HttpRequest :=
  ⟨false, url, some 10⟩

/-- The webhook notification POST of `send_discord_message`
(main.py line 83): `requests.post(DISCORD_WEBHOOK_URL, json=payload)` —
no `timeout=` argument. -/
def discord_webhook_request (webhook : String) : HttpRequest :=
  ⟨true, webhook, none⟩

/-- The availability query of `is_recent_snapshot` (main.py line 94):
`requests.get("https://archive.org/wayback/available", ..., timeout=30)`. -/
def wayback_available_request : HttpRequest :=
  ⟨false, "https://archive.org/wayback/available", some 30⟩

/-- The archive-save GET of `archive_url` (main.py line 115):
`requests.get("https://web.archive.org/save/" + url, ..., timeout=60)`. -/
def archive_save_request (url : String) : HttpRequest :=
  ⟨false, "https://web.archive.org/save/" ++ url, some 60⟩

/-- The submission outcomes that make `archive_url` enter cooldown
(main.py lines 119-121 and 132-137): a completed response with status 429
or 503, a `Timeout`, or another `RequestException`. -/
def triggersCooldown : SubmitResult → Prop
  | .timeout => True
  | .requestError _ => True
  | .response code _ => code = 429 ∨ code = 503

/-- A concrete iteration environment used to instantiate the loop
theorems: the fetch returns body `"x"`, a webhook is configured, the POST
succeeds, and every submission gets a 200 response with no recent
snapshot. -/
def witnessIterEnv : IterEnv :=
  ⟨.ok "x", some "https://discord.example/hook", .ok (),
   fun _ => ⟨.response 200 "r", .noSnapshot⟩⟩

-- ---------------------------------------------------------------------
-- Helper lemmas
-- ---------------------------------------------------------------------

theorem not_in_cooldown_deadline_le {cd : Option Nat} {now : Nat}
    (h : in_cooldown cd now = false) : cdDeadline cd ≤ now + 3600 := by
  cases cd with
  | none => simp [cdDeadline]
  | some u =>
    simp only [in_cooldown, decide_eq_false_iff_not, Nat.not_lt] at h
    simp only [cdDeadline, Option.getD_some]
    omega

theorem in_cooldown_self_deadline (now : Nat) :
    in_cooldown (some (now + 3600)) now = true := by
  simp [in_cooldown]

theorem archive_url_cd_shape (aenv : ArchiveEnv) (now : Nat) (cd : Option Nat)
    (url : String) :
    (archive_url aenv now cd url).1 = cd ∨
      (archive_url aenv now cd url).1 = enter_cooldown now := by
  unfold archive_url
  by_cases hc : in_cooldown cd now = true
  · simp [hc]
  · simp only [Bool.not_eq_true] at hc
    cases hs : aenv.submitRes with
    | timeout => simp [hc, hs]
    | requestError e => simp [hc, hs]
    | response code finalUrl =>
      by_cases h59 : code = 429 ∨ code = 503
      · simp [hc, hs, h59]
      · simp [hc, hs, h59]

theorem archive_url_deadline_mono (aenv : ArchiveEnv) (now : Nat) (cd : Option Nat)
    (url : String) : cdDeadline cd ≤ cdDeadline (archive_url aenv now cd url).1 := by
  rcases archive_url_cd_shape aenv now cd url with h | h
  · rw [h]
  · rw [h]
    by_cases hc : in_cooldown cd now = true
    · unfold archive_url at h
      rw [if_pos hc] at h
      have h2 : cd = enter_cooldown now := h
      rw [h2]
    · simp only [Bool.not_eq_true] at hc
      have := not_in_cooldown_deadline_le hc
      simp only [enter_cooldown, cdDeadline, Option.getD_some]
      simp only [cdDeadline] at this
      omega

theorem archive_url_ne_none (aenv : ArchiveEnv) (now : Nat) (cd : Option Nat)
    (url : String) (h : cd ≠ none) : (archive_url aenv now cd url).1 ≠ none := by
  rcases archive_url_cd_shape aenv now cd url with hs | hs <;> rw [hs]
  · exact h
  · simp [enter_cooldown]

theorem is_recent_snapshot_callTrace (se : SnapEnv) (url : String) (maxAge : Int) :
    (is_recent_snapshot se url maxAge).2.filterMap callTrace = [] := by
  cases se <;> simp [is_recent_snapshot, callTrace]

theorem archive_url_callTrace (aenv : ArchiveEnv) (now : Nat) (cd : Option Nat)
    (url : String) :
    (archive_url aenv now cd url).2.filterMap callTrace = [Sum.inr url] := by
  unfold archive_url
  by_cases hc : in_cooldown cd now = true
  · simp [hc, callTrace]
  · simp only [Bool.not_eq_true] at hc
    cases hs : aenv.submitRes with
    | timeout => simp [hc, hs, callTrace, enterCooldownLog]
    | requestError e => simp [hc, hs, callTrace, enterCooldownLog]
    | response code finalUrl =>
      by_cases h59 : code = 429 ∨ code = 503
      · simp [hc, hs, h59, callTrace, enterCooldownLog]
      · simp only [hc, hs, h59, Bool.false_eq_true, if_false, if_neg]
        simp only [List.filterMap_append, List.filterMap_cons, callTrace,
          List.filterMap_nil, is_recent_snapshot_callTrace]
        by_cases hr : (is_recent_snapshot aenv.snap url 3600).1.1 = true
        · simp [hr, callTrace]
        · simp only [Bool.not_eq_true] at hr
          cases hsn : (is_recent_snapshot aenv.snap url 3600).1.2 with
          | none => simp [hr, hsn, callTrace]
          | some su => simp [hr, hsn, callTrace]

theorem archive_seq_callTrace (aenvs : String → ArchiveEnv) (now : Nat)
    (cd : Option Nat) (urls : List String) :
    (archive_seq aenvs now cd urls).2.filterMap callTrace = urls.map Sum.inr := by
  induction urls generalizing cd with
  | nil => simp [archive_seq]
  | cons u rest ih =>
    simp [archive_seq, List.filterMap_append, archive_url_callTrace, ih]

theorem send_discord_callTrace (webhook : Option String) (postRes : Except String Unit)
    (message : String) :
    (send_discord_message webhook postRes message).filterMap callTrace =
      [Sum.inl message] := by
  unfold send_discord_message
  cases webhook <;> cases postRes <;> simp [callTrace]

-- ---------------------------------------------------------------------
-- Claim theorems
-- ---------------------------------------------------------------------

/-- Claim C2: if cooldown was entered at time `t0`, the cooldown check
reports Cooling for every `t0 ≤ t < t0 + 3600` and Clear for every
`t ≥ t0 + 3600`; and the check is purely the comparison of the current
time against the stored deadline, for any state. -/
theorem cooldown_window_invariant (t0 t : Nat) :
    (t < t0 + 3600 → in_cooldown (enter_cooldown t0) t = true) ∧
    (t0 + 3600 ≤ t → in_cooldown (enter_cooldown t0) t = false) ∧
    (∀ cd, in_cooldown cd t = true ↔ ∃ u, cd = some u ∧ t < u) := by
  refine ⟨?_, ?_, ?_⟩
  · intro h
    simp [in_cooldown, enter_cooldown, h]
  · intro h
    simp only [in_cooldown, enter_cooldown, decide_eq_false_iff_not, Nat.not_lt]
    omega
  · intro cd
    cases cd with
    | none => simp [in_cooldown]
    | some u => simp [in_cooldown]

/-- Witness for C2 at `t0 = 5`, `t = 3604` (inside the window). -/
theorem cooldown_window_invariant_witness :
    3604 < 5 + 3600 ∧ in_cooldown (enter_cooldown 5) 3604 = true :=
  ⟨by decide, (cooldown_window_invariant 5 3604).1 (by decide)⟩

/-- Claim C9: the cooldown deadline starts unset, the only mutation is
`enter_cooldown` storing `now + 3600`, no operation resets the state to
unset, and the stored deadline is monotone: `enter_cooldown` at a later
time stores a later deadline, and one `archive_url` call never decreases
the stored deadline. -/
theorem cooldown_never_cleared_monotone :
    cooldown_until_init = none ∧
    (∀ t, enter_cooldown t = some (t + 3600)) ∧
    (∀ t t1, t ≤ t1 → cdDeadline (enter_cooldown t) ≤ cdDeadline (enter_cooldown t1)) ∧
    (∀ aenv now cd url,
      ((archive_url aenv now cd url).1 = cd ∨
        (archive_url aenv now cd url).1 = enter_cooldown now) ∧
      cdDeadline cd ≤ cdDeadline (archive_url aenv now cd url).1 ∧
      (cd ≠ none → (archive_url aenv now cd url).1 ≠ none)) := by
  refine ⟨rfl, fun t => rfl, ?_, ?_⟩
  · intro t t1 h
    simp only [enter_cooldown, cdDeadline, Option.getD_some]
    omega
  · intro aenv now cd url
    exact ⟨archive_url_cd_shape aenv now cd url,
           archive_url_deadline_mono aenv now cd url,
           archive_url_ne_none aenv now cd url⟩

/-- Witness for C9: the monotonicity conjunct at `t = 1`, `t1 = 2`. -/
theorem cooldown_never_cleared_monotone_witness :
    (1 : Nat) ≤ 2 ∧ cdDeadline (enter_cooldown 1) ≤ cdDeadline (enter_cooldown 2) :=
  ⟨by decide, cooldown_never_cleared_monotone.2.2.1 1 2 (by decide)⟩

/-- Claim C3: when the cooldown check reports Cooling at the moment
`archive_url` is invoked, the call performs zero outbound requests of any
kind, appends exactly one (skip) log entry, and leaves the cooldown state
unchanged. -/
theorem archive_skip_in_cooldown (aenv : ArchiveEnv) (now : Nat) (cd : Option Nat)
    (url : String) (h : in_cooldown cd now = true) :
    archive_url aenv now cd url =
      (cd, [.archiveCall url,
            .logE ("🚫 Skipping " ++ url ++ " — system is in cooldown.")]) ∧
    (archive_url aenv now cd url).2.countP Event.isOutbound = 0 ∧
    (archive_url aenv now cd url).2.countP Event.isLog = 1 := by
  have he : archive_url aenv now cd url =
      (cd, [.archiveCall url,
            .logE ("🚫 Skipping " ++ url ++ " — system is in cooldown.")]) := by
    unfold archive_url
    rw [if_pos h]
  refine ⟨he, ?_, ?_⟩ <;> rw [he] <;> rfl

/-- Witness for C3 at `cd = some 1`, `now = 0`. -/
theorem archive_skip_in_cooldown_witness :
    in_cooldown (some 1) 0 = true ∧
    archive_url ⟨.response 200 "r", .noSnapshot⟩ 0 (some 1) "u" =
      (some 1, [.archiveCall "u",
                .logE ("🚫 Skipping " ++ "u" ++ " — system is in cooldown.")]) :=
  ⟨by decide,
   (archive_skip_in_cooldown ⟨.response 200 "r", .noSnapshot⟩ 0 (some 1) "u"
     (by decide)).1⟩

/-- Claim C4: starting Clear, `archive_url` sets the cooldown deadline to
`now + 3600` exactly when the submission returns status 429 or 503, times
out, or raises a transport error; and the outcome of the snapshot-recency
check never influences the resulting cooldown state. -/
theorem cooldown_entry_conditions (aenv : ArchiveEnv) (now : Nat) (cd : Option Nat)
    (url : String) (h : in_cooldown cd now = false) :
    ((archive_url aenv now cd url).1 = some (now + 3600) ↔
      triggersCooldown aenv.submitRes) ∧
    (∀ sr s1 s2, (archive_url ⟨sr, s1⟩ now cd url).1 =
      (archive_url ⟨sr, s2⟩ now cd url).1) := by
  have hne : cd ≠ some (now + 3600) := by
    intro hx
    rw [hx, in_cooldown_self_deadline now] at h
    exact Bool.true_eq_false.mp h
  constructor
  · unfold archive_url
    rw [if_neg (by simp [h])]
    cases hs : aenv.submitRes with
    | timeout => simp [enter_cooldown, triggersCooldown]
    | requestError e => simp [enter_cooldown, triggersCooldown]
    | response code finalUrl =>
      by_cases h59 : code = 429 ∨ code = 503
      · simp [h59, enter_cooldown, triggersCooldown]
      · simp [h59, triggersCooldown, hne]
  · intro sr s1 s2
    unfold archive_url
    rw [if_neg (by simp [h]), if_neg (by simp [h])]
    cases sr with
    | timeout => rfl
    | requestError e => rfl
    | response code finalUrl =>
      by_cases h59 : code = 429 ∨ code = 503
      · simp [h59]
      · simp [h59]

/-- Witness for C4: a timed-out submission from the Clear state at time 0
enters cooldown. -/
theorem cooldown_entry_conditions_witness :
    in_cooldown none 0 = false ∧
    ((archive_url ⟨.timeout, .noSnapshot⟩ 0 none "u").1 = some (0 + 3600) ↔
      triggersCooldown SubmitResult.timeout) :=
  ⟨rfl, (cooldown_entry_conditions ⟨.timeout, .noSnapshot⟩ 0 none "u" rfl).1⟩

/-- Claim C6 (refuted by the code): the four outbound call sites and the
`timeout=` argument each passes to `requests`.  The monitored-page fetch,
the archive save, and the availability query carry explicit timeouts, but
the webhook notification POST (main.py line 83) carries none. -/
theorem webhook_post_missing_timeout :
    (discord_webhook_request "https://discord.example/hook").timeout = none ∧
    (fetch_html_request URL_TO_MONITOR).timeout = some 10 ∧
    (archive_save_request URL_TO_MONITOR).timeout = some 60 ∧
    wayback_available_request.timeout = some 30 :=
  ⟨rfl, rfl, rfl, rfl⟩

theorem log_append_foldl (es : List String) : ∀ buf : List String,
    buf.length ≤ 1000 →
    List.foldl log_append buf es = (buf ++ es).drop (buf.length + es.length - 1000) := by
  induction es with
  | nil =>
    intro buf h
    simp [Nat.sub_eq_zero_of_le h]
  | cons e rest ih =>
    intro buf h
    rw [List.foldl_cons]
    by_cases hlen : buf.length + 1 ≤ 1000
    · have h1 : log_append buf e = buf ++ [e] := by
        unfold log_append
        rw [if_neg (by simp; omega)]
      rw [h1, ih (buf ++ [e]) (by simp; omega)]
      have harith : (buf ++ [e]).length + rest.length - 1000 =
          buf.length + (e :: rest).length - 1000 := by
        simp
        omega
      rw [harith, List.append_assoc, List.singleton_append]
    · have hb : buf.length = 1000 := by omega
      have h1 : log_append buf e = (buf ++ [e]).drop 1 := by
        unfold log_append
        rw [if_pos (by simp [hb])]
      rw [h1, ih ((buf ++ [e]).drop 1) (by simp [hb])]
      have hd : (buf ++ [e]).drop 1 ++ rest = ((buf ++ [e]) ++ rest).drop 1 := by
        cases buf with
        | nil => simp at hb
        | cons b bt => simp
      rw [hd, List.drop_drop, List.append_assoc, List.singleton_append]
      have harith : ((buf ++ [e]).drop 1).length + rest.length - 1000 =
          buf.length + (e :: rest).length - 1000 - 1 := by
        simp [hb]
      rw [harith]
      have harith2 : 1 + (buf.length + (e :: rest).length - 1000 - 1) =
          buf.length + (e :: rest).length - 1000 := by
        simp [hb]
        omega
      rw [harith2]

/-- Claim C5: after any completed append to a buffer holding at most 1000
entries the buffer still holds at most 1000 entries, and eviction is
oldest-first: after appending 1001 entries to an empty buffer the result
is exactly the input sequence without its first entry, so the first entry
is gone and the second is the oldest remaining. -/
theorem log_buffer_bounded :
    (∀ (buf : List String) (e : String), buf.length ≤ 1000 →
      (log_append buf e).length ≤ 1000) ∧
    (∀ es : List String, es.length = 1001 →
      List.foldl log_append [] es = es.drop 1 ∧
      (List.foldl log_append [] es).head? = es[1]?) := by
  constructor
  · intro buf e h
    simp only [log_append]
    split <;> simp_all
  · intro es h
    have h0 : List.foldl log_append [] es = es.drop 1 := by
      rw [log_append_foldl es [] (by simp)]
      simp [h]
    refine ⟨h0, ?_⟩
    rw [h0, List.head?_drop]

/-- Witness for C5: one append to the empty buffer stays within bounds. -/
theorem log_buffer_bounded_witness :
    ([] : List String).length ≤ 1000 ∧ (log_append [] "x").length ≤ 1000 :=
  ⟨by decide, log_buffer_bounded.1 [] "x" (by decide)⟩

/-- Claim C1: in one Running-state iteration with a successful fetch, if
the digest of the body equals `last_hash` then the iteration makes no
Notifier call and no `archive_url` call and leaves `last_hash` (and the
cooldown state) unchanged — its whole trace is the single fetch;  if the
digest differs, the call trace is exactly one Notifier invocation whose
message contains the monitored URL followed by one `archive_url`
invocation per configured target in list order, and `last_hash` becomes
the new digest. -/
theorem monitor_change_detection (env : IterEnv) (urls : List String) (now : Nat)
    (lastHash : String) (cd : Option Nat) (body : String)
    (hfetch : env.fetchRes = .ok body) :
    (hash_content body = lastHash →
      running_step env urls now lastHash cd = (lastHash, cd, [.fetch URL_TO_MONITOR])) ∧
    (hash_content body ≠ lastHash →
      (running_step env urls now lastHash cd).1 = hash_content body ∧
      (running_step env urls now lastHash cd).2.2.filterMap callTrace =
        Sum.inl changedNotification :: urls.map Sum.inr ∧
      ∃ p s, changedNotification = p ++ URL_TO_MONITOR ++ s) := by
  constructor
  · intro heq
    unfold running_step
    rw [hfetch]
    simp [fetch_html, heq]
  · intro hne
    unfold running_step
    rw [hfetch]
    refine ⟨?_, ?_, "⚠️ Content changed! <", ">", rfl⟩
    · simp [fetch_html, hne]
    · simp [fetch_html, hne, archive_all_urls, callTrace, List.filterMap_append,
        send_discord_callTrace, archive_seq_callTrace]

/-- Witness for C1: with the concrete environment and `last_hash` equal to
the digest of the fetched body, the iteration is a bare fetch. -/
theorem monitor_change_detection_witness :
    running_step witnessIterEnv ["u"] 0 (hash_content "x") none =
      (hash_content "x", none, [.fetch URL_TO_MONITOR]) :=
  (monitor_change_detection witnessIterEnv ["u"] 0 (hash_content "x") none "x" rfl).1 rfl

/-- Claim C7: when the initial fetch fails, the monitor loop's whole trace
is the banner log, the single failed fetch attempt, and two error logs —
independent of any later iteration environments, the loop never reaches
the Running state (`monitor_init` yields no initial hash) and performs no
outbound call after the failed attempt. -/
theorem initial_fetch_failure_terminates (e : String) (urls : List String)
    (iters : List (IterEnv × Nat)) :
    (monitor_init (.error e)).1 = none ∧
    monitor_and_archive_loop urls (.error e) iters =
      [.logE ("🔍 Monitoring HTML content at: " ++ URL_TO_MONITOR),
       .fetch URL_TO_MONITOR,
       .logE ("❌ Error fetching HTML: " ++ e),
       .logE "❌ Failed to get initial HTML content. Exiting monitor."] ∧
    ((monitor_and_archive_loop urls (.error e) iters).drop 2).countP
      Event.isOutbound = 0 :=
  ⟨rfl, rfl, rfl⟩

/-- Claim C10: an `ARCHIVE_URLS` value that is non-empty but whose
comma-separated fields are all empty after stripping yields the empty
target list (not the default list, which is used exactly for an unset or
empty variable), and with an empty target list a detected change performs
zero archive submissions. -/
theorem archive_urls_whitespace_empty :
    parse_archive_urls (some ",") = [] ∧
    parse_archive_urls (some " , ") = [] ∧
    parse_archive_urls none = default_archive_urls ∧
    parse_archive_urls (some "") = default_archive_urls ∧
    (∀ s : String, s ≠ "" →
      (∀ u ∈ splitOnComma s.data, pyStrip u = []) →
      parse_archive_urls (some s) = []) ∧
    (∀ env now lastHash cd,
      ((running_step env [] now lastHash cd).2.2.countP Event.isSubmit) = 0) := by
  refine ⟨rfl, rfl, rfl, rfl, ?_, ?_⟩
  · intro s hs hall
    simp only [parse_archive_urls, if_neg hs]
    rw [List.filterMap_eq_nil_iff]
    intro u hu
    rw [if_pos (hall u hu)]
  · intro env now lastHash cd
    unfold running_step
    cases hf : env.fetchRes with
    | error e => simp [fetch_html, Event.isSubmit]
    | ok body =>
      by_cases hne : hash_content body ≠ lastHash
      · simp only [fetch_html, hne, if_pos, if_true, ne_eq, not_false_iff]
        simp only [archive_all_urls, archive_seq]
        simp [List.countP_append, Event.isSubmit, send_discord_message]
        cases env.webhook <;> cases env.postRes <;>
          simp [Event.isSubmit, List.countP_cons]
      · simp only [ne_eq, Decidable.not_not] at hne
        simp [fetch_html, hne, Event.isSubmit]

/-- Witness for C10: `" , "` is non-empty, all its fields strip to
nothing, and the parsed target list is empty. -/
theorem archive_urls_whitespace_empty_witness :
    (" , " : String) ≠ "" ∧ parse_archive_urls (some " , ") = [] :=
  ⟨by decide,
   archive_urls_whitespace_empty.2.2.2.2.1 " , " (by decide) (by decide)⟩

theorem w32_lt (x : Nat) : w32 x < 4294967296 :=
  Nat.mod_lt _ (by decide)

theorem shaCompress_bounded (st : Sha256State) (block : List Nat) :
    (shaCompress st block).bounded :=
  ⟨w32_lt _, w32_lt _, w32_lt _, w32_lt _, w32_lt _, w32_lt _, w32_lt _, w32_lt _⟩

theorem foldl_shaCompress_bounded (blocks : List (List Nat)) :
    ∀ st : Sha256State, st.bounded → (blocks.foldl shaCompress st).bounded := by
  induction blocks with
  | nil => intro st h; exact h
  | cons b rest ih => intro st _; exact ih _ (shaCompress_bounded st b)

theorem shaInit_bounded : shaInit.bounded := by
  refine ⟨?_, ?_, ?_, ?_, ?_, ?_, ?_, ?_⟩ <;> decide

theorem horner_step {x y M : Nat} (hx : x < M) (hy : y < 4294967296) :
    x * 4294967296 + y < M * 4294967296 := by
  have h1 : x + 1 ≤ M := hx
  have h2 : (x + 1) * 4294967296 ≤ M * 4294967296 := Nat.mul_le_mul_right _ h1
  omega

theorem stateToNat_lt (s : Sha256State) (h : s.bounded) :
    stateToNat s < 2 ^ 256 := by
  obtain ⟨h1, h2, h3, h4, h5, h6, h7, h8⟩ := h
  have t2 := horner_step h1 h2
  have t3 := horner_step t2 h3
  have t4 := horner_step t3 h4
  have t5 := horner_step t4 h5
  have t6 := horner_step t5 h6
  have t7 := horner_step t6 h7
  have t8 := horner_step t7 h8
  have e : ((((((4294967296 * 4294967296) * 4294967296) * 4294967296) *
      4294967296) * 4294967296) * 4294967296) * 4294967296 = 2 ^ 256 := by
    norm_num
  unfold stateToNat
  exact lt_of_lt_of_eq t8 e

theorem sha256Nat_lt (m : List Nat) : sha256Nat m < 2 ^ 256 :=
  stateToNat_lt _ (foldl_shaCompress_bounded _ _ shaInit_bounded)

/-- Claim C8 (refuted as stated): `digest(a) = digest(b)` iff `a = b`
cannot hold — the digest takes values in the finite space of 256-bit
numbers while the input space is infinite, so by pigeonhole two distinct
inputs share a digest.  No explicit colliding pair is exhibited (none is
feasibly computable), but the universal claim is disproved. -/
theorem digest_injective_refuted :
    ¬ ∀ a b : String, hash_content a = hash_content b ↔ a = b := by
  intro hclaim
  obtain ⟨x, y, hxy, hfeq⟩ := Finite.exists_ne_map_eq_of_infinite
    (fun n : ℕ =>
      (⟨sha256Nat (strBytes (String.mk (List.replicate n 'a'))), sha256Nat_lt _⟩ :
        Fin (2 ^ 256)))
  have hv : sha256Nat (strBytes (String.mk (List.replicate x 'a'))) =
      sha256Nat (strBytes (String.mk (List.replicate y 'a'))) :=
    congrArg Fin.val hfeq
  have hd : hash_content (String.mk (List.replicate x 'a')) =
      hash_content (String.mk (List.replicate y 'a')) := by
    unfold hash_content
    rw [hv]
  have heq := (hclaim _ _).mp hd
  apply hxy
  have hlen := congrArg (fun s : String => s.data.length) heq
  simpa using hlen

/-- Claim C8 (amended): the digest is a pure deterministic function of its
input — equal bodies give equal digests — and always produces a
fixed-size, 64-hex-character digest; the converse (collision-freedom) is
an idealization that no fixed-size hash can satisfy. -/
theorem digest_deterministic_fixed_size (a b : String) (h : a = b) :
    hash_content a = hash_content b ∧ (hash_content a).length = 64 := by
  refine ⟨by rw [h], ?_⟩
  unfold hash_content toHexFixed
  simp [String.length]

/-- Witness for the amended C8 at `a = b = "abc"`. -/
theorem digest_deterministic_fixed_size_witness :
    ("abc" : String) = "abc" ∧
    (hash_content "abc" = hash_content "abc" ∧ (hash_content "abc").length = 64) :=
  ⟨rfl, digest_deterministic_fixed_size "abc" "abc" rfl⟩

end Monitor
